import Mathlib

/-!
Shallow embedding of `app/src/streamlit_app.py` (Llama Stack + MCP Streamlit
client): the startup model/toolgroup listing, the session lifecycle, and the
turn event-stream reducer `response_generator`, together with proofs of the
specification's claims about them.
-/

set_option maxRecDepth 4000

namespace StreamlitApp

/-- Python exceptions that the embedded code can raise.  An uncaught
exception aborts the Streamlit script (or the generator) at the point it is
raised. -/
inductive PyErr where
  | apiConnectionError
  | jsonDecodeError
  | keyError
  | typeError
  | indexError
deriving DecidableEq

/-- JSON values as produced by `json.loads`.  Numbers are kept as their
source lexeme: no claim depends on numeric evaluation, only on whether a
document parses and on how scalar results are displayed. -/
inductive JVal where
  | jnull
  | jbool (b : Bool)
  | jnum (lexeme : String)
  | jstr (s : String)
  | jarr (elems : List JVal)
  | jobj (fields : List (String × JVal))

/-- Skip JSON insignificant whitespace (RFC 8259), as `json.loads` does. -/
def skipWs : List Char → List Char
  | [] => []
  | c :: cs =>
    if c = ' ' ∨ c = '\t' ∨ c = '\n' ∨ c = '\r' then skipWs cs else c :: cs

/-- Value of one hexadecimal digit. -/
def hexVal (c : Char) : Option Nat :=
  if '0' ≤ c ∧ c ≤ '9' then some (c.toNat - '0'.toNat)
  else if 'a' ≤ c ∧ c ≤ 'f' then some (c.toNat - 'a'.toNat + 10)
  else if 'A' ≤ c ∧ c ≤ 'F' then some (c.toNat - 'A'.toNat + 10)
  else none

/-- Body of a JSON string after the opening quote: standard escapes and the
four-digit `\u` form (escapes that name no Unicode scalar value are
rejected); unescaped control characters are rejected, as in strict
`json.loads`. -/
def parseJStrBody : Nat → List Char → List Char → Option (String × List Char)
  | 0, _, _ => none
  | fuel + 1, acc, cs =>
    match cs with
    | [] => none
    | '"' :: rest => some (String.mk acc.reverse, rest)
    | '\\' :: e :: rest =>
      match e with
      | '"' => parseJStrBody fuel ('"' :: acc) rest
      | '\\' => parseJStrBody fuel ('\\' :: acc) rest
      | '/' => parseJStrBody fuel ('/' :: acc) rest
      | 'b' => parseJStrBody fuel ('\x08' :: acc) rest
      | 'f' => parseJStrBody fuel ('\x0c' :: acc) rest
      | 'n' => parseJStrBody fuel ('\n' :: acc) rest
      | 'r' => parseJStrBody fuel ('\r' :: acc) rest
      | 't' => parseJStrBody fuel ('\t' :: acc) rest
      | 'u' =>
        match rest with
        | h1 :: h2 :: h3 :: h4 :: rest2 =>
          match hexVal h1, hexVal h2, hexVal h3, hexVal h4 with
          | some a, some b, some c, some d =>
            let n := ((a * 16 + b) * 16 + c) * 16 + d
            if h : n.isValidChar then
              parseJStrBody fuel (Char.ofNatAux n h :: acc) rest2
            else none
          | _, _, _, _ => none
        | _ => none
      | _ => none
    | c :: rest =>
      if c.toNat < 32 then none else parseJStrBody fuel (c :: acc) rest

/-- Longest digit run at the head of the input. -/
def takeDigits : List Char → List Char × List Char
  | [] => ([], [])
  | c :: cs =>
    if c.isDigit then
      let (ds, rest) := takeDigits cs
      (c :: ds, rest)
    else ([], c :: cs)

/-- Optional fraction part of a JSON number. -/
def parseFracPart : List Char → Option (List Char × List Char)
  | '.' :: rest =>
    let (ds, rest2) := takeDigits rest
    if ds.isEmpty then none else some ('.' :: ds, rest2)
  | cs => some ([], cs)

/-- Optional exponent part of a JSON number. -/
def parseExpPart : List Char → Option (List Char × List Char)
  | c :: rest =>
    if c = 'e' ∨ c = 'E' then
      let (sgn, rest1) :=
        match rest with
        | s :: r => if s = '+' ∨ s = '-' then ([s], r) else (([] : List Char), rest)
        | [] => ([], rest)
      let (ds, rest2) := takeDigits rest1
      if ds.isEmpty then none else some (c :: (sgn ++ ds), rest2)
    else some ([], c :: rest)
  | [] => some ([], [])

/-- A JSON number (`-?(0|[1-9][0-9]*)(\.[0-9]+)?([eE][+-]?[0-9]+)?`),
returned as its lexeme.  The nonstandard `NaN`/`Infinity` extensions of
`json.loads` are not modelled; no claim mentions them. -/
def parseJNum (cs : List Char) : Option (String × List Char) :=
  let (sign, cs1) :=
    match cs with
    | '-' :: rest => ((['-'] : List Char), rest)
    | _ => ([], cs)
  let intRes : Option (List Char × List Char) :=
    match cs1 with
    | '0' :: rest =>
      match rest with
      | c :: _ => if c.isDigit then none else some (['0'], rest)
      | [] => some (['0'], [])
    | c :: _ => if c.isDigit then some (takeDigits cs1) else none
    | [] => none
  match intRes with
  | none => none
  | some (ip, cs2) =>
    match parseFracPart cs2 with
    | none => none
    | some (fp, cs3) =>
      match parseExpPart cs3 with
      | none => none
      | some (ep, cs4) =>
        if ip.isEmpty then none
        else some (String.mk (sign ++ ip ++ fp ++ ep), cs4)

mutual

/-- A JSON value, fuel-bounded recursive descent. -/
def parseJVal : Nat → List Char → Option (JVal × List Char)
  | 0, _ => none
  | fuel + 1, cs =>
    match skipWs cs with
    | 'n' :: 'u' :: 'l' :: 'l' :: rest => some (.jnull, rest)
    | 't' :: 'r' :: 'u' :: 'e' :: rest => some (.jbool true, rest)
    | 'f' :: 'a' :: 'l' :: 's' :: 'e' :: rest => some (.jbool false, rest)
    | '"' :: rest =>
      match parseJStrBody fuel [] rest with
      | some (s, rest2) => some (.jstr s, rest2)
      | none => none
    | '\x5b' :: rest =>
      match skipWs rest with
      | '\x5d' :: rest2 => some (.jarr [], rest2)
      | _ => parseJArrElems fuel rest []
    | '\x7b' :: rest =>
      match skipWs rest with
      | '\x7d' :: rest2 => some (.jobj [], rest2)
      | _ => parseJObjFields fuel rest []
    | cs2 =>
      match parseJNum cs2 with
      | some (lex, rest) => some (.jnum lex, rest)
      | none => none

/-- Comma-separated array elements up to the closing bracket. -/
def parseJArrElems : Nat → List Char → List JVal → Option (JVal × List Char)
  | 0, _, _ => none
  | fuel + 1, cs, acc =>
    match parseJVal fuel cs with
    | none => none
    | some (v, rest) =>
      match skipWs rest with
      | ',' :: rest2 => parseJArrElems fuel rest2 (v :: acc)
      | '\x5d' :: rest2 => some (.jarr (v :: acc).reverse, rest2)
      | _ => none

/-- Comma-separated `"key": value` fields up to the closing brace. -/
def parseJObjFields : Nat → List Char → List (String × JVal) → Option (JVal × List Char)
  | 0, _, _ => none
  | fuel + 1, cs, acc =>
    match skipWs cs with
    | '"' :: rest =>
      match parseJStrBody fuel [] rest with
      | some (k, rest1) =>
        match skipWs rest1 with
        | ':' :: rest2 =>
          match parseJVal fuel rest2 with
          | some (v, rest3) =>
            match skipWs rest3 with
            | ',' :: rest4 => parseJObjFields fuel rest4 ((k, v) :: acc)
            | '\x7d' :: rest4 => some (.jobj ((k, v) :: acc).reverse, rest4)
            | _ => none
          | none => none
        | _ => none
      | none => none
    | _ => none

end

/-- Model of `json.loads`: parse one JSON document, requiring the whole
input to be consumed; `none` models a raised `json.JSONDecodeError`. -/
def jsonLoads (s : String) : Option JVal :=
  match parseJVal (s.length + 1) s.data with
  | some (v, rest) => if skipWs rest = [] then some v else none
  | none => none

/-- Dictionaries from `json.loads` are Python dicts: on duplicate keys the
last occurrence wins, so subscripting looks the field up from the right. -/
def jLookup (k : String) (fields : List (String × JVal)) : Option JVal :=
  (fields.reverse.find? (fun p => p.1 == k)).map (fun p => p.2)

/-- Python subscripting `v["text"]`: a `KeyError` on a dict without the key,
a `TypeError` on any non-dict value. -/
def jsonSubscriptText (v : JVal) : Except PyErr JVal :=
  match v with
  | .jobj fields =>
    match jLookup "text" fields with
    | some t => .ok t
    | none => .error .keyError
  | _ => .error .typeError

/-- Line 134: `json.loads(... .tool_responses[0].content)["text"]`, given
the content string. -/
def loadsTextField (content : String) : Except PyErr JVal :=
  match jsonLoads content with
  | none => .error .jsonDecodeError
  | some v => jsonSubscriptText v

/-- One hexadecimal digit character. -/
def hexDigitChar (n : Nat) : Char :=
  if n < 10 then Char.ofNat ('0'.toNat + n) else Char.ofNat ('a'.toNat + n - 10)

/-- CPython `repr` escaping of one character inside a string literal
delimited by quote `q`: backslash, the delimiter, and ASCII control
characters are escaped; printable characters stand for themselves. -/
def pyEscChar (q : Char) (c : Char) : List Char :=
  if c = '\\' then ['\\', '\\']
  else if c = q then ['\\', q]
  else if c = '\n' then ['\\', 'n']
  else if c = '\r' then ['\\', 'r']
  else if c = '\t' then ['\\', 't']
  else if c.toNat < 32 ∨ c.toNat = 127 then
    ['\\', 'x', hexDigitChar (c.toNat / 16), hexDigitChar (c.toNat % 16)]
  else [c]

/-- CPython `repr` of a string: single-quoted, except double-quoted when
the string holds a single quote but no double quote.  (Non-printable
non-ASCII code points, which CPython would `\u`-escape, are kept as
themselves; no claim involves them.) -/
def pyStrRepr (s : String) : String :=
  let q : Char := if s.data.contains '\x27' ∧ ¬ s.data.contains '"' then '"' else '\x27'
  String.mk ((q :: (s.data.map (pyEscChar q)).flatten) ++ [q])

/-- Line 137 builds the one-element set display `{content_text}` around the
decoded `"text"` value: constructing the set raises `TypeError` when the
element is unhashable (a list or a dict); otherwise `str` of the set is the
element's `repr` in braces.  Number lexemes stand in for CPython's numeric
`repr`. -/
def pySetDisplay : JVal → Except PyErr String
  | .jarr _ => .error .typeError
  | .jobj _ => .error .typeError
  | .jnull => .ok "\x7bNone\x7d"
  | .jbool true => .ok "\x7bTrue\x7d"
  | .jbool false => .ok "\x7bFalse\x7d"
  | .jnum lex => .ok ("\x7b" ++ lex ++ "\x7d")
  | .jstr s => .ok ("\x7b" ++ pyStrRepr s ++ "\x7d")

/-- Line 137: `str({"tool_name":{tool_name}, "arguments":{tool_args},
"content":{content_text}})` — `str` of a dict whose values are one-element
sets; `tool_name` and `tool_args` are strings (always hashable), and the
content set display is passed in already rendered. -/
def toolInfoStr (tool_name : String) (tool_args : String) (contentSet : String) : String :=
  "\x7b\x27tool_name\x27: \x7b" ++ pyStrRepr tool_name ++
    "\x7d, \x27arguments\x27: \x7b" ++ pyStrRepr tool_args ++
    "\x7d, \x27content\x27: " ++ contentSet ++ "\x7d"

/-- Python list subscripting `xs[i]`: `IndexError` out of range. -/
def pyIndex {α : Type} (xs : List α) (i : Nat) : Except PyErr α :=
  match xs.get? i with
  | some x => .ok x
  | none => .error .indexError

/-! Section: Turn-event data model (lines 124–142)

The stream chunks are `AgentTurnResponseStreamChunk` objects.  `hasattr`
checks are modelled by `Option` fields; the payload fields the code reads
after its `event_type` guards are always present on the corresponding
payload classes, so they are plain fields here. -/

structure ToolCall where
  tool_name : String
  arguments_json : String
deriving DecidableEq

structure ToolResponse where
  content : String
deriving DecidableEq

structure StepDetails where
  step_type : String
  tool_calls : List ToolCall
  tool_responses : List ToolResponse
deriving DecidableEq

/-- The payload's `delta`; `hasattr(delta, "text")` (line 129) is
`text?.isSome`. -/
structure Delta where
  text? : Option String
deriving DecidableEq

structure Payload where
  event_type : String
  delta : Delta
  step_details : StepDetails
deriving DecidableEq

/-- Model of `r.event`; `hasattr(r.event, "payload")` (line 126) is
`payload?.isSome`. -/
structure EventObj where
  payload? : Option Payload
deriving DecidableEq

/-- One stream chunk `r`; `py_str` is the string interpolation `{r}` used
by the error fragment on line 142. -/
structure Chunk where
  event : EventObj
  py_str : String
deriving DecidableEq

/-- Line 13: module-level constant. -/
def TOOL_DEBUG : Bool := false

/-- The fragments yielded by one iteration of `response_generator`'s loop
(lines 126–142) for chunk `r`, or the uncaught exception raised during that
iteration.  In the debug branch the exception opportunities occur in source
order: `tool_responses[0]`, `json.loads(...)["text"]`, `tool_calls[0]`,
then the set display of the decoded content.  The global `TOOL_DEBUG` read
on line 133 is passed as `debug`. -/
def eventFragments (debug : Bool) (r : Chunk) : Except PyErr (List String) :=
  match r.event.payload? with
  | none => .ok ["Error occurred in the Llama Stack Cluster: " ++ r.py_str]
  | some payload =>
    let progressFrags : List String :=
      if payload.event_type = "step_progress" then
        match payload.delta.text? with
        | some text => [text]
        | none => []
      else []
    if payload.event_type = "step_complete" then
      if payload.step_details.step_type = "tool_execution" then
        if debug then do
          let resp ← pyIndex payload.step_details.tool_responses 0
          let content_text ← loadsTextField resp.content
          let call ← pyIndex payload.step_details.tool_calls 0
          let contentSet ← pySetDisplay content_text
          .ok (progressFrags ++
            [" 🛠 " ++ toolInfoStr call.tool_name call.arguments_json contentSet ++ " \n\n"])
        else .ok (progressFrags ++ [" 🛠 "])
      else .ok progressFrags
    else .ok progressFrags

/-- Function `response_generator` (lines 124–142) as an ordered fold over the chunk
stream: the fragments yielded before any uncaught exception, paired with
that exception if one is raised (a raised exception ends the generator, so
no later chunk is processed). -/
def response_generator (debug : Bool) : List Chunk → List String × Option PyErr
  | [] => ([], none)
  | r :: rest =>
    match eventFragments debug r with
    | .error e => ([], some e)
    | .ok fs =>
      let (fs2, err) := response_generator debug rest
      (fs ++ fs2, err)

/-! Section: Startup listings (lines 15–28)

The remote runtime is modelled by whether it is reachable and by what its
list endpoints would return; an unreachable remote makes every client call
raise `APIConnectionError`. -/

structure Model where
  identifier : String
  api_model_type : String
deriving DecidableEq

structure ToolGroup where
  identifier : String
deriving DecidableEq

structure Remote where
  reachable : Bool
  models : List Model
  toolgroups : List ToolGroup

/-- Python `s.startswith(p)`: the first `len(p)` characters of `s` are
exactly `p`. -/
def pyStartsWith (s p : String) : Bool :=
  s.data.take p.data.length == p.data

/-- Call `client.models.list()` (line 18). -/
def client_models_list (r : Remote) : Except PyErr (List Model) :=
  if r.reachable then .ok r.models else .error .apiConnectionError

/-- Call `client.toolgroups.list()` (line 25). -/
def client_toolgroups_list (r : Remote) : Except PyErr (List ToolGroup) :=
  if r.reachable then .ok r.toolgroups else .error .apiConnectionError

/-- The module-level names the startup sequence binds when it completes. -/
structure Startup where
  connected : Bool
  model_list : List String
  tool_groups_list : List String
deriving DecidableEq

/-- Lines 17–28 of the script: `models = client.models.list()` inside
`try/except APIConnectionError` (degrading to an empty list and
`connected = False`), the `model_list` comprehension, then
`tool_groups = client.toolgroups.list()` — which is *outside* the
`try` block — and the `tool_groups_list` comprehension.  An exception
raised there aborts the whole script run. -/
def startup (r : Remote) : Except PyErr Startup :=
  let (models, connected) :=
    match client_models_list r with
    | .ok ms => (ms, true)
    | .error _ => (([] : List Model), false)
  let model_list :=
    (models.filter (fun m => m.api_model_type == "llm")).map Model.identifier
  match client_toolgroups_list r with
  | .error e => .error e
  | .ok tool_groups =>
    let tool_groups_list :=
      (tool_groups.filter (fun tg => pyStartsWith tg.identifier "mcp::")).map ToolGroup.identifier
    .ok ⟨connected, model_list, tool_groups_list⟩

/-! Section: Session lifecycle (lines 30–32, 70–105)

Streamlit state: `st.session_state` holds the session id and the message
history, `st.cache_resource` holds the cached agent.  `reset_agent` is the
`on_change` handler of all three sidebar widgets; after it runs, Streamlit
re-executes the script top to bottom. -/

structure Message where
  role : String
  content : String
deriving DecidableEq

/-- The configuration triple the agent is built from: `model`,
`agent_type` and `toolgroup_selection`. -/
structure Config where
  model : String
  agent_type : String
  toolgroup_selection : List String
deriving DecidableEq

structure SessionState where
  agent_session_id : Option String
  messages : Option (List Message)
deriving DecidableEq

structure CacheState where
  agent : Option Config
deriving DecidableEq

structure AppState where
  session : SessionState
  cache : CacheState
deriving DecidableEq

/-- Lines 30–32: `st.session_state.clear(); st.cache_resource.clear()`. -/
def reset_agent (_ : AppState) : AppState :=
  { session := { agent_session_id := none, messages := none }, cache := { agent := none } }

/-- Line 98: the session name `f"mcp_demo_{uuid.uuid4()}"`, with the drawn
UUID passed in. -/
def sessionName (u : String) : String :=
  "mcp_demo_" ++ u

/-- The session-relevant straight line of one script run (lines 70–105):
`create_agent()` through `@st.cache_resource` (an agent is identified here
by the configuration it was built from), then
`if "agent_session_id" not in st.session_state: ... create_session(...)`,
then the `messages` default.  Returns the new state together with the list
of sessions created during the run. -/
def scriptRun (cfg : Config) (u : String) (s : AppState) : AppState × List String :=
  let cache :=
    match s.cache.agent with
    | some a => ({ agent := some a } : CacheState)
    | none => { agent := some cfg }
  let (sid, created) :=
    match s.session.agent_session_id with
    | some id => (id, ([] : List String))
    | none => (sessionName u, [sessionName u])
  let msgs :=
    match s.session.messages with
    | some ms => ms
    | none => [{ role := "assistant", content := "How can I help you?" }]
  ({ session := { agent_session_id := some sid, messages := some msgs }, cache := cache }, created)

/-- A configuration change: the widget's `on_change=reset_agent` handler
fires, then Streamlit re-runs the script. -/
def onConfigChange (cfg : Config) (u : String) (s : AppState) : AppState × List String :=
  scriptRun cfg u (reset_agent s)

/-! Section: Concrete sample chunks used in scenarios -/

/-- A `step_progress` chunk carrying delta text `t`. -/
def progChunk (t : String) : Chunk :=
  { event :=
      { payload? := some
          { event_type := "step_progress", delta := { text? := some t },
            step_details := { step_type := "", tool_calls := [], tool_responses := [] } } },
    py_str := "" }

/-- A `step_complete` tool-execution chunk whose first tool response has
content `content`. -/
def toolChunk (content : String) : Chunk :=
  { event :=
      { payload? := some
          { event_type := "step_complete", delta := { text? := none },
            step_details :=
              { step_type := "tool_execution",
                tool_calls := [{ tool_name := "t", arguments_json := "a" }],
                tool_responses := [{ content := content }] } } },
    py_str := "" }

/-- A `step_start` chunk: it matches neither reducer branch. -/
def startChunk : Chunk :=
  { event :=
      { payload? := some
          { event_type := "step_start", delta := { text? := none },
            step_details := { step_type := "inference", tool_calls := [], tool_responses := [] } } },
    py_str := "" }

/-! Section: Helper lemmas about the reducer -/

theorem eventFragments_no_payload (d : Bool) (r : Chunk)
    (h : r.event.payload? = none) :
    eventFragments d r = .ok ["Error occurred in the Llama Stack Cluster: " ++ r.py_str] := by
  simp [eventFragments, h]

theorem eventFragments_progress (d : Bool) (r : Chunk) (p : Payload) (t : String)
    (hp : r.event.payload? = some p) (he : p.event_type = "step_progress")
    (ht : p.delta.text? = some t) :
    eventFragments d r = .ok [t] := by
  simp [eventFragments, hp, he, ht]

theorem eventFragments_tool_marker (r : Chunk) (p : Payload)
    (hp : r.event.payload? = some p) (he : p.event_type = "step_complete")
    (hs : p.step_details.step_type = "tool_execution") :
    eventFragments false r = .ok [" 🛠 "] := by
  simp [eventFragments, hp, he, hs]

theorem eventFragments_debug_error (r : Chunk) (p : Payload)
    (resp : ToolResponse) (rs : List ToolResponse) (e : PyErr)
    (hp : r.event.payload? = some p) (he : p.event_type = "step_complete")
    (hs : p.step_details.step_type = "tool_execution")
    (hresp : p.step_details.tool_responses = resp :: rs)
    (herr : loadsTextField resp.content = .error e) :
    eventFragments true r = .error e := by
  simp [eventFragments, hp, he, hs, hresp, pyIndex, herr, bind, Except.bind]

theorem eventFragments_debug_info (r : Chunk) (p : Payload)
    (call : ToolCall) (cs : List ToolCall) (resp : ToolResponse) (rs : List ToolResponse)
    (t : String)
    (hp : r.event.payload? = some p) (he : p.event_type = "step_complete")
    (hs : p.step_details.step_type = "tool_execution")
    (hcalls : p.step_details.tool_calls = call :: cs)
    (hresps : p.step_details.tool_responses = resp :: rs)
    (htext : loadsTextField resp.content = .ok (.jstr t)) :
    eventFragments true r =
      .ok [" 🛠 " ++
        toolInfoStr call.tool_name call.arguments_json ("\x7b" ++ pyStrRepr t ++ "\x7d") ++
        " \n\n"] := by
  simp [eventFragments, hp, he, hs, hcalls, hresps, pyIndex, htext, pySetDisplay,
    bind, Except.bind]

theorem eventFragments_debug_set_error (r : Chunk) (p : Payload)
    (call : ToolCall) (cs : List ToolCall) (resp : ToolResponse) (rs : List ToolResponse)
    (v : JVal) (e : PyErr)
    (hp : r.event.payload? = some p) (he : p.event_type = "step_complete")
    (hs : p.step_details.step_type = "tool_execution")
    (hcalls : p.step_details.tool_calls = call :: cs)
    (hresps : p.step_details.tool_responses = resp :: rs)
    (htext : loadsTextField resp.content = .ok v)
    (hset : pySetDisplay v = .error e) :
    eventFragments true r = .error e := by
  simp [eventFragments, hp, he, hs, hcalls, hresps, pyIndex, htext, hset, bind, Except.bind]

theorem eventFragments_skip (d : Bool) (r : Chunk) (p : Payload)
    (hp : r.event.payload? = some p)
    (h1 : ¬ (p.event_type = "step_progress" ∧ p.delta.text?.isSome = true))
    (h2 : ¬ (p.event_type = "step_complete" ∧ p.step_details.step_type = "tool_execution")) :
    eventFragments d r = .ok [] := by
  by_cases hprog : p.event_type = "step_progress"
  · have ht : p.delta.text? = none := by
      cases h : p.delta.text? with
      | none => rfl
      | some t => exact absurd ⟨hprog, by simp [h]⟩ h1
    have hc : ¬ p.event_type = "step_complete" := by
      rw [hprog]; decide
    simp [eventFragments, hp, hprog, ht, hc]
  · by_cases hcomp : p.event_type = "step_complete"
    · have hst : ¬ p.step_details.step_type = "tool_execution" := fun hh => h2 ⟨hcomp, hh⟩
      simp [eventFragments, hp, hprog, hcomp, hst]
    · simp [eventFragments, hp, hprog, hcomp]

theorem eventFragments_false_isOk (r : Chunk) :
    ∃ fs, eventFragments false r = .ok fs := by
  cases hp : r.event.payload? with
  | none => exact ⟨_, eventFragments_no_payload false r hp⟩
  | some p =>
    by_cases h1 : p.event_type = "step_progress"
    · cases ht : p.delta.text? with
      | some t => exact ⟨_, eventFragments_progress false r p t hp h1 ht⟩
      | none =>
        have hc : ¬ p.event_type = "step_complete" := by rw [h1]; decide
        exact ⟨[], by simp [eventFragments, hp, h1, ht, hc]⟩
    · by_cases h2 : p.event_type = "step_complete"
      · by_cases h3 : p.step_details.step_type = "tool_execution"
        · exact ⟨_, eventFragments_tool_marker r p hp h2 h3⟩
        · exact ⟨[], by simp [eventFragments, hp, h1, h2, h3]⟩
      · exact ⟨[], by simp [eventFragments, hp, h1, h2]⟩

theorem response_generator_cons_ok (d : Bool) (r : Chunk) (rest : List Chunk)
    (fs : List String) (h : eventFragments d r = .ok fs) :
    response_generator d (r :: rest) =
      (fs ++ (response_generator d rest).1, (response_generator d rest).2) := by
  cases hrest : response_generator d rest
  simp [response_generator, h, hrest]

theorem response_generator_cons_error (d : Bool) (r : Chunk) (rest : List Chunk)
    (e : PyErr) (h : eventFragments d r = .error e) :
    response_generator d (r :: rest) = ([], some e) := by
  simp [response_generator, h]

theorem response_generator_no_error_false (es : List Chunk) :
    (response_generator false es).2 = none := by
  induction es with
  | nil => rfl
  | cons r rest ih =>
    obtain ⟨fs, hfs⟩ := eventFragments_false_isOk r
    rw [response_generator_cons_ok false r rest fs hfs]
    exact ih

theorem response_generator_append (d : Bool) (xs ys : List Chunk)
    (h : (response_generator d xs).2 = none) :
    response_generator d (xs ++ ys) =
      ((response_generator d xs).1 ++ (response_generator d ys).1,
        (response_generator d ys).2) := by
  induction xs with
  | nil => simp [response_generator]
  | cons x xs ih =>
    cases hx : eventFragments d x with
    | error e =>
      rw [response_generator_cons_error d x xs e hx] at h
      simp at h
    | ok fs =>
      rw [response_generator_cons_ok d x xs fs hx] at h
      rw [List.cons_append, response_generator_cons_ok d x (xs ++ ys) fs hx,
        response_generator_cons_ok d x xs fs hx, ih h]
      simp [List.append_assoc]

/-! Section: Characters that Python repr renders verbatim -/

/-- Characters whose CPython `repr` inside a single-quoted literal is the
character itself: not a quote, not a backslash, not an ASCII control
character. -/
def reprSafe (s : String) : Prop :=
  ∀ c ∈ s.data, c ≠ '\x27' ∧ c ≠ '"' ∧ c ≠ '\\' ∧ 32 ≤ c.toNat ∧ c.toNat ≠ 127

instance (s : String) : Decidable (reprSafe s) := by
  unfold reprSafe; infer_instance

theorem pyEscChar_safe (c : Char)
    (h : c ≠ '\x27' ∧ c ≠ '"' ∧ c ≠ '\\' ∧ 32 ≤ c.toNat ∧ c.toNat ≠ 127) :
    pyEscChar '\x27' c = [c] := by
  obtain ⟨h1, _, h3, h4, h5⟩ := h
  have hn : c ≠ '\n' := by intro hh; rw [hh] at h4; exact absurd h4 (by decide)
  have hr : c ≠ '\r' := by intro hh; rw [hh] at h4; exact absurd h4 (by decide)
  have ht : c ≠ '\t' := by intro hh; rw [hh] at h4; exact absurd h4 (by decide)
  have hlo : ¬ (c.toNat < 32 ∨ c.toNat = 127) := by
    rintro (hh | hh)
    · omega
    · exact h5 hh
  simp [pyEscChar, h1, h3, hn, hr, ht, hlo]

theorem flatten_pyEscChar_safe (l : List Char)
    (h : ∀ c ∈ l, c ≠ '\x27' ∧ c ≠ '"' ∧ c ≠ '\\' ∧ 32 ≤ c.toNat ∧ c.toNat ≠ 127) :
    (l.map (pyEscChar '\x27')).flatten = l := by
  induction l with
  | nil => rfl
  | cons c cs ih =>
    rw [List.map_cons, List.flatten_cons, pyEscChar_safe c (h c (List.mem_cons_self _ _)),
      ih (fun c2 hc2 => h c2 (List.mem_cons_of_mem _ hc2))]
    rfl

theorem pyStrRepr_safe (s : String) (h : reprSafe s) :
    pyStrRepr s = "\x27" ++ s ++ "\x27" := by
  have hq : s.data.contains '\x27' = false := by
    have hnotmem : '\x27' ∉ s.data := fun hmem => (h _ hmem).1 rfl
    simpa using hnotmem
  apply String.ext
  simp only [pyStrRepr, hq, Bool.false_eq_true, false_and, if_neg, String.data_append,
    ite_false]
  rw [flatten_pyEscChar_safe s.data h]
  simp

theorem sessionName_inj (u₁ u₂ : String) (h : sessionName u₁ = sessionName u₂) :
    u₁ = u₂ := by
  apply String.ext
  have hdata := congrArg String.data h
  rw [sessionName, sessionName, String.data_append, String.data_append] at hdata
  exact List.append_cancel_left hdata

/-! Section: Predicates used by the claims -/

/-- A chunk whose payload is a `step_progress` event carrying delta text. -/
def IsTextProgress (r : Chunk) : Prop :=
  ∃ p t, r.event.payload? = some p ∧ p.event_type = "step_progress" ∧ p.delta.text? = some t

/-- The delta text of a progress chunk (empty for any other shape). -/
def progressText (r : Chunk) : String :=
  match r.event.payload? with
  | some p => p.delta.text?.getD ""
  | none => ""

/-! Section: Claims -/

/-- C1: the spec claims that a connection failure at startup degrades
gracefully — empty model list *and* empty tool-group list, a disconnected
indicator, no session, no crash.  The code contradicts this: only
`client.models.list()` is guarded by `try/except APIConnectionError`;
`client.toolgroups.list()` on line 25 runs outside the guard, so for every
unreachable remote the startup sequence aborts with an uncaught
`APIConnectionError` — before the sidebar indicator is rendered and before
any session could be created. -/
theorem C1_startup_crashes_when_disconnected (ms : List Model) (tgs : List ToolGroup) :
    startup { reachable := false, models := ms, toolgroups := tgs } =
      .error .apiConnectionError := by
  simp [startup, client_models_list, client_toolgroups_list]

/-- C3: for every event stream consisting only of `step_progress` chunks
with text deltas, the concatenation of the fragments emitted by
`response_generator` equals the concatenation of the delta texts in arrival
order, and no error is raised. -/
theorem C3_progress_only_concatenation (d : Bool) (es : List Chunk)
    (h : ∀ r ∈ es, IsTextProgress r) :
    String.join (response_generator d es).1 = String.join (es.map progressText) ∧
    (response_generator d es).2 = none := by
  have main : response_generator d es = (es.map progressText, none) := by
    induction es with
    | nil => rfl
    | cons r rest ih =>
      obtain ⟨p, t, hp, he, ht⟩ := h r (List.mem_cons_self _ _)
      have hev : eventFragments d r = .ok [t] := eventFragments_progress d r p t hp he ht
      have hpt : progressText r = t := by simp [progressText, hp, ht]
      rw [response_generator_cons_ok d r rest [t] hev,
        ih (fun r2 hr2 => h r2 (List.mem_cons_of_mem _ hr2)), List.map_cons, hpt]
      rfl
  rw [main]
  exact ⟨rfl, rfl⟩

/-- C4: a `step_complete` chunk whose step details carry step type
`tool_execution` makes `response_generator` with verbose mode disabled emit
exactly the fixed marker fragment `" 🛠 "`, independently of the tool
calls and responses, and reduction continues on the rest of the stream. -/
theorem C4_tool_marker_non_verbose (r : Chunk) (p : Payload) (rest : List Chunk)
    (hp : r.event.payload? = some p)
    (he : p.event_type = "step_complete")
    (hs : p.step_details.step_type = "tool_execution") :
    response_generator false (r :: rest) =
      (" 🛠 " :: (response_generator false rest).1, (response_generator false rest).2) := by
  rw [response_generator_cons_ok false r rest [" 🛠 "]
    (eventFragments_tool_marker r p hp he hs)]
  rfl

/-- C5: a chunk whose event has no `payload` attribute makes
`response_generator` emit one fragment embedding the chunk's string
representation, and the fold continues with the remaining events. -/
theorem C5_missing_payload_inline_error (d : Bool) (r : Chunk) (rest : List Chunk)
    (h : r.event.payload? = none) :
    response_generator d (r :: rest) =
      (("Error occurred in the Llama Stack Cluster: " ++ r.py_str) ::
          (response_generator d rest).1,
        (response_generator d rest).2) := by
  rw [response_generator_cons_ok d r rest _ (eventFragments_no_payload d r h)]
  rfl

/-- C7: a chunk that has a payload but is neither a `step_progress` event
with a text delta nor a `step_complete` event with step type
`tool_execution` contributes no fragment at all: the reduction of the
stream is unchanged by the chunk. -/
theorem C7_other_events_silently_skipped (d : Bool) (r : Chunk) (p : Payload)
    (rest : List Chunk)
    (hp : r.event.payload? = some p)
    (h1 : ¬ (p.event_type = "step_progress" ∧ p.delta.text?.isSome = true))
    (h2 : ¬ (p.event_type = "step_complete" ∧ p.step_details.step_type = "tool_execution")) :
    response_generator d (r :: rest) = response_generator d rest := by
  rw [response_generator_cons_ok d r rest [] (eventFragments_skip d r p hp h1 h2)]
  simp

/-- C9: scenario — the input stream `[progress "Hel", progress "lo",
complete(tool_execution)]` with the shipped verbose flag (disabled) reduces
to exactly `"Hello 🛠 "`, with no error. -/
theorem C9_hello_marker_scenario :
    String.join (response_generator TOOL_DEBUG
        [progChunk "Hel", progChunk "lo", toolChunk "x"]).1 = "Hello 🛠 " ∧
    (response_generator TOOL_DEBUG [progChunk "Hel", progChunk "lo", toolChunk "x"]).2 =
      none :=
  ⟨rfl, rfl⟩

/-- C2 counterexample: with the shipped reducer (the compile-time constant
`TOOL_DEBUG = False`), a stream containing a `step_complete` tool-execution
event whose first tool response content `"oops"` is not valid JSON raises
no parse error at all: the reducer emits the plain marker fragment and the
fold finishes cleanly, contradicting the claim as stated. -/
theorem C2_counterexample_no_error_when_not_verbose :
    jsonLoads "oops" = none ∧
    response_generator TOOL_DEBUG [toolChunk "oops"] = ([" 🛠 "], none) :=
  ⟨rfl, rfl⟩

/-- C2 (amended): *when verbose/debug mode is enabled*, for every event
stream whose clean prefix is followed by a `step_complete` tool-execution
event whose first tool response content fails JSON-with-`"text"`-field
extraction, the reducer raises that error and the turn terminates: only the
prefix's fragments are produced, and no later event is processed. -/
theorem C2_amended_verbose_parse_error_aborts_turn
    (pre : List Chunk) (r : Chunk) (p : Payload) (rest : List Chunk)
    (resp : ToolResponse) (rs : List ToolResponse) (e : PyErr)
    (hpre : (response_generator true pre).2 = none)
    (hp : r.event.payload? = some p)
    (he : p.event_type = "step_complete")
    (hs : p.step_details.step_type = "tool_execution")
    (hresp : p.step_details.tool_responses = resp :: rs)
    (herr : loadsTextField resp.content = .error e) :
    response_generator true (pre ++ r :: rest) =
      ((response_generator true pre).1, some e) := by
  rw [response_generator_append true pre (r :: rest) hpre,
    response_generator_cons_error true r rest e
      (eventFragments_debug_error r p resp rs e hp he hs hresp herr)]
  simp

/-- C6 counterexample: in verbose mode, a `step_complete` tool-execution
event whose first tool response content is *valid* JSON with a `"text"`
field — but whose text value is a JSON array — emits no fragment at all:
building the one-element set `{content_text}` around the unhashable decoded
value raises `TypeError` and aborts the turn, contradicting the claim that
every such event yields a tool-info fragment. -/
theorem C6_counterexample_unhashable_text_aborts :
    loadsTextField "\x7b\"text\": [0]\x7d" = .ok (JVal.jarr [JVal.jnum "0"]) ∧
    response_generator true [toolChunk "\x7b\"text\": [0]\x7d"] =
      ([], some PyErr.typeError) :=
  ⟨rfl, rfl⟩

/-- C6 (amended): in verbose mode, for every `step_complete` tool-execution
event with at least one tool call and one tool response whose first tool
response content is a JSON object whose `"text"` field is a string, the
reducer emits a single fragment containing the tool name, its arguments,
and that text — each rendered through Python `repr` — and reduction
continues with the rest of the stream; for every such event whose `"text"`
value is instead an unhashable array or object, building the one-element
set display raises `TypeError` and the turn aborts with no fragment. -/
theorem C6_amended_verbose_tool_info_fragment
    (r : Chunk) (p : Payload) (rest : List Chunk)
    (call : ToolCall) (cs : List ToolCall) (resp : ToolResponse) (rs : List ToolResponse)
    (hp : r.event.payload? = some p)
    (he : p.event_type = "step_complete")
    (hs : p.step_details.step_type = "tool_execution")
    (hcalls : p.step_details.tool_calls = call :: cs)
    (hresps : p.step_details.tool_responses = resp :: rs) :
    (∀ t : String, loadsTextField resp.content = .ok (.jstr t) →
      response_generator true (r :: rest) =
        ((" 🛠 " ++
            ("\x7b\x27tool_name\x27: \x7b" ++ pyStrRepr call.tool_name ++
              "\x7d, \x27arguments\x27: \x7b" ++ pyStrRepr call.arguments_json ++
              "\x7d, \x27content\x27: " ++ ("\x7b" ++ pyStrRepr t ++ "\x7d") ++ "\x7d") ++
            " \n\n") :: (response_generator true rest).1,
          (response_generator true rest).2)) ∧
    (∀ elems : List JVal, loadsTextField resp.content = .ok (.jarr elems) →
      response_generator true (r :: rest) = ([], some PyErr.typeError)) ∧
    (∀ fields : List (String × JVal), loadsTextField resp.content = .ok (.jobj fields) →
      response_generator true (r :: rest) = ([], some PyErr.typeError)) := by
  refine ⟨?_, ?_, ?_⟩
  · intro t htext
    rw [response_generator_cons_ok true r rest _
      (eventFragments_debug_info r p call cs resp rs t hp he hs hcalls hresps htext)]
    rfl
  · intro elems htext
    exact response_generator_cons_error true r rest _
      (eventFragments_debug_set_error r p call cs resp rs (.jarr elems) PyErr.typeError
        hp he hs hcalls hresps htext rfl)
  · intro fields htext
    exact response_generator_cons_error true r rest _
      (eventFragments_debug_set_error r p call cs resp rs (.jobj fields) PyErr.typeError
        hp he hs hcalls hresps htext rfl)

/-- C8: changing any element of the configuration triple fires
`reset_agent`, clearing the session and message history, and the following
script run creates exactly one new session named from the freshly drawn
UUID (distinct UUIDs give distinct session names); the message history
restarts at the assistant greeting. -/
theorem C8_config_change_resets_and_creates_one_session
    (cfg : Config) (u : String) (s : AppState) :
    (onConfigChange cfg u s).2 = [sessionName u] ∧
    (onConfigChange cfg u s).1.session.agent_session_id = some (sessionName u) ∧
    (onConfigChange cfg u s).1.session.messages =
      some [{ role := "assistant", content := "How can I help you?" }] ∧
    (∀ u₁ u₂ : String, u₁ ≠ u₂ → sessionName u₁ ≠ sessionName u₂) := by
  refine ⟨rfl, rfl, rfl, ?_⟩
  intro u₁ u₂ hne heq
  exact hne (sessionName_inj u₁ u₂ heq)

/-- C10: because the verbose flag is the compile-time constant
`TOOL_DEBUG = False`, the debug branch — including its JSON parse — is
unreachable: for every possible event stream the shipped reducer raises no
exception at all, and every `step_complete` tool-execution event emits the
fixed marker fragment `" 🛠 "`. -/
theorem C10_debug_branch_unreachable :
    (∀ es : List Chunk, (response_generator TOOL_DEBUG es).2 = none) ∧
    (∀ (r : Chunk) (p : Payload) (rest : List Chunk),
      r.event.payload? = some p → p.event_type = "step_complete" →
      p.step_details.step_type = "tool_execution" →
      response_generator TOOL_DEBUG (r :: rest) =
        (" 🛠 " :: (response_generator TOOL_DEBUG rest).1, none)) := by
  constructor
  · intro es
    exact response_generator_no_error_false es
  · intro r p rest hp he hs
    show response_generator false (r :: rest) = _
    rw [response_generator_cons_ok false r rest [" 🛠 "]
      (eventFragments_tool_marker r p hp he hs)]
    rw [response_generator_no_error_false rest]
    rfl

/-! Section: Witnesses -/

/-- A chunk whose event lacks the `payload` attribute. -/
def noPayloadChunk : Chunk :=
  { event := { payload? := none }, py_str := "raw-chunk" }

def cfg0 : Config :=
  { model := "m", agent_type := "Regular", toolgroup_selection := [] }

def state0 : AppState :=
  { session :=
      { agent_session_id := some "old",
        messages := some [{ role := "user", content := "x" }] },
    cache := { agent := some cfg0 } }

/-- Witness for C2 (amended), at a clean one-chunk prefix followed by a
malformed tool response and one further (never processed) event. -/
theorem C2_amended_witness :
    response_generator true ([progChunk "Hi"] ++ toolChunk "oops" :: [startChunk]) =
      (["Hi"], some PyErr.jsonDecodeError) :=
  C2_amended_verbose_parse_error_aborts_turn [progChunk "Hi"] (toolChunk "oops") _
    [startChunk] _ [] PyErr.jsonDecodeError rfl rfl rfl rfl rfl rfl

/-- Witness for C3 at a concrete two-chunk progress stream. -/
theorem C3_witness :
    String.join (response_generator false [progChunk "Hel", progChunk "lo"]).1 =
      String.join ([progChunk "Hel", progChunk "lo"].map progressText) ∧
    (response_generator false [progChunk "Hel", progChunk "lo"]).2 = none :=
  C3_progress_only_concatenation false [progChunk "Hel", progChunk "lo"] (by
    intro r hr
    simp only [List.mem_cons, List.not_mem_nil, or_false] at hr
    rcases hr with h | h <;> subst h <;> exact ⟨_, _, rfl, rfl, rfl⟩)

/-- Witness for C4 at a concrete tool-execution chunk. -/
theorem C4_witness :
    response_generator false [toolChunk "x"] = ([" 🛠 "], none) :=
  C4_tool_marker_non_verbose (toolChunk "x") _ [] rfl rfl rfl

/-- Witness for C5 at a concrete payload-less chunk followed by a progress
chunk, showing the fold continues. -/
theorem C5_witness :
    response_generator false [noPayloadChunk, progChunk "ok"] =
      (["Error occurred in the Llama Stack Cluster: raw-chunk", "ok"], none) :=
  C5_missing_payload_inline_error false noPayloadChunk [progChunk "ok"] rfl

/-- A `step_complete` tool-execution chunk with explicit tool-call
arguments (a realistic JSON document) and first tool response content. -/
def toolChunk2 (args content : String) : Chunk :=
  { event :=
      { payload? := some
          { event_type := "step_complete", delta := { text? := none },
            step_details :=
              { step_type := "tool_execution",
                tool_calls := [{ tool_name := "t", arguments_json := args }],
                tool_responses := [{ content := content }] } } },
    py_str := "" }

/-- Witness for C6 (amended), exercising both clauses at concrete verbose
tool-execution chunks whose arguments string contains double quotes, as
real tool arguments do: content `{"text": "ok"}` yields the tool-info
fragment, content `{"text": [0]}` aborts with `TypeError`. -/
theorem C6_amended_witness :
    response_generator true [toolChunk2 "\x7b\"q\": 1\x7d" "\x7b\"text\": \"ok\"\x7d"] =
      ([" 🛠 \x7b\x27tool_name\x27: \x7b\x27t\x27\x7d, \x27arguments\x27: \x7b\x27\x7b\"q\": 1\x7d\x27\x7d, \x27content\x27: \x7b\x27ok\x27\x7d\x7d \n\n"],
        none) ∧
    response_generator true [toolChunk2 "\x7b\"q\": 1\x7d" "\x7b\"text\": [0]\x7d"] =
      ([], some PyErr.typeError) :=
  ⟨(C6_amended_verbose_tool_info_fragment
      (toolChunk2 "\x7b\"q\": 1\x7d" "\x7b\"text\": \"ok\"\x7d") _ []
      ⟨"t", "\x7b\"q\": 1\x7d"⟩ [] ⟨"\x7b\"text\": \"ok\"\x7d"⟩ []
      rfl rfl rfl rfl rfl).1 "ok" rfl,
    (C6_amended_verbose_tool_info_fragment
      (toolChunk2 "\x7b\"q\": 1\x7d" "\x7b\"text\": [0]\x7d") _ []
      ⟨"t", "\x7b\"q\": 1\x7d"⟩ [] ⟨"\x7b\"text\": [0]\x7d"⟩ []
      rfl rfl rfl rfl rfl).2.1 [JVal.jnum "0"] rfl⟩

/-- Witness for C7 at a concrete `step_start` chunk. -/
theorem C7_witness :
    response_generator false [startChunk, progChunk "ok"] =
      response_generator false [progChunk "ok"] :=
  C7_other_events_silently_skipped false startChunk _ [progChunk "ok"] rfl
    (by decide) (by decide)

/-- Witness for C8 at a concrete non-empty prior state and two distinct
UUIDs. -/
theorem C8_witness :
    (onConfigChange cfg0 "u1" state0).2 = [sessionName "u1"] ∧
    sessionName "a" ≠ sessionName "b" :=
  ⟨(C8_config_change_resets_and_creates_one_session cfg0 "u1" state0).1,
    (C8_config_change_resets_and_creates_one_session cfg0 "u1" state0).2.2.2 "a" "b"
      (by decide)⟩

/-- Witness for C10 at a concrete tool-execution chunk with malformed
content: the shipped reducer still emits the marker and no error. -/
theorem C10_witness :
    response_generator TOOL_DEBUG [toolChunk "zzz"] = ([" 🛠 "], none) :=
  C10_debug_branch_unreachable.2 (toolChunk "zzz") _ [] rfl rfl rfl

end StreamlitApp
